import Mathlib

/-!
Verification of the pgpart partition-operation engine against its
specification.  The Go sources under internal/partition and internal/ui are
shallowly embedded: pure functions become Lean functions, the mutable
history and batch-queue state becomes explicit state passing, and every
external subprocess (diskinfo, dd, gpart, geom) is abstracted as an
environment parameter recording which commands were invoked and what their
textual results were.  Machine integers (Go uint64 / int) are modelled as
Nat / Int, with explicit wrap-around modulo 2^64 where Go arithmetic can
overflow.
-/

namespace PGPart

/-! ## Alignment constants and classifier (src/internal/partition/attributes.go) -/

/-- 4 KiB alignment boundary in bytes (Align4K in attributes.go). -/
def Align4K : Nat := 4096

/-- 128 KiB alignment boundary in bytes (Align128K in attributes.go). -/
def Align128K : Nat := 131072

/-- 1 MiB alignment boundary in bytes (Align1M in attributes.go). -/
def Align1M : Nat := 1048576

/-- 4 MiB alignment boundary in bytes (Align4M in attributes.go). -/
def Align4M : Nat := 4194304

/-- checkAlignment from attributes.go: classifies a byte offset against the
descending boundaries 4 MiB, 1 MiB, 128 KiB, 4 KiB, returning
(isAligned, alignmentType, recommendation). -/
def checkAlignment (offset : Nat) : Bool × String × String :=
  if offset % Align4M = 0 then
    (true, "4 MiB aligned", "Optimal alignment for SSDs")
  else if offset % Align1M = 0 then
    (true, "1 MiB aligned", "Recommended alignment for modern drives")
  else if offset % Align128K = 0 then
    (true, "128 KiB aligned", "Good alignment, but 1 MiB recommended")
  else if offset % Align4K = 0 then
    (true, "4 KiB aligned", "Minimum alignment, consider 1 MiB for better performance")
  else
    (false, "Misaligned",
      "Partition should be aligned to at least 1 MiB boundary for optimal performance")

/-! ## Optimal alignment detection (src/internal/partition/attributes.go) -/

/-- Computable check that the character list pat occurs at the head of s. -/
def startsWithSeq : List Char → List Char → Bool
  | [], _ => true
  | _ :: _, [] => false
  | a :: as, b :: bs => a == b && startsWithSeq as bs

/-- Computable check that the character list pat occurs contiguously inside s,
mirroring the Go strings.Contains used by the engine. -/
def containsSeq (pat : List Char) : List Char → Bool
  | [] => pat.isEmpty
  | c :: rest => startsWithSeq pat (c :: rest) || containsSeq pat rest

/-- strings.Contains s pat, on Lean strings. -/
def strContains (s pat : String) : Bool :=
  containsSeq pat.toList s.toList

/-- The rotational-media test of GetOptimalAlignment in attributes.go: the
diskinfo -v output signals non-rotating media when it contains the substring
non-rotating, or contains both the Rotation-rate header and a zero digit
(Go operator precedence: Contains a || Contains b && Contains c). -/
def signalsNonRotating (out : String) : Bool :=
  strContains out "non-rotating" || (strContains out "# Rotation rate" && strContains out "0")

/-- GetOptimalAlignment from attributes.go, with the diskinfo -v subprocess
abstracted as an environment value: none models a failed command, some out a
successful command with combined output out. Non-rotating media get the
4 MiB boundary, everything else (including detection failure) gets 1 MiB. -/
def GetOptimalAlignment (diskinfoOutput : Option String) : Nat :=
  match diskinfoOutput with
  | some out => if signalsNonRotating out then Align4M else Align1M
  | none => Align1M

/-! ## Theorems for alignment claims -/

/-- C7: alignment classification tests the boundaries 4 MiB, 1 MiB, 128 KiB,
4 KiB in that descending priority order and reports the first boundary that
evenly divides the offset; an offset divisible by none of the four (for
example 512) is reported as misaligned with a recommendation to align to at
least 1 MiB. -/
theorem checkAlignment_priority (offset : Nat) :
    (offset % Align4M = 0 →
      checkAlignment offset = (true, "4 MiB aligned", "Optimal alignment for SSDs")) ∧
    (offset % Align4M ≠ 0 → offset % Align1M = 0 →
      checkAlignment offset = (true, "1 MiB aligned", "Recommended alignment for modern drives")) ∧
    (offset % Align4M ≠ 0 → offset % Align1M ≠ 0 → offset % Align128K = 0 →
      checkAlignment offset = (true, "128 KiB aligned", "Good alignment, but 1 MiB recommended")) ∧
    (offset % Align4M ≠ 0 → offset % Align1M ≠ 0 → offset % Align128K ≠ 0 → offset % Align4K = 0 →
      checkAlignment offset =
        (true, "4 KiB aligned", "Minimum alignment, consider 1 MiB for better performance")) ∧
    (offset % Align4M ≠ 0 → offset % Align1M ≠ 0 → offset % Align128K ≠ 0 → offset % Align4K ≠ 0 →
      checkAlignment offset = (false, "Misaligned",
        "Partition should be aligned to at least 1 MiB boundary for optimal performance")) ∧
    checkAlignment 512 = (false, "Misaligned",
      "Partition should be aligned to at least 1 MiB boundary for optimal performance") := by
  refine ⟨?_, ?_, ?_, ?_, ?_, by decide⟩ <;> intros <;> simp_all [checkAlignment]

/-- Witness for C7: 4194304 is divisible by 4 MiB and is classified as
4 MiB aligned; obtained by applying checkAlignment_priority at 4194304. -/
theorem checkAlignment_priority_witness :
    checkAlignment 4194304 = (true, "4 MiB aligned", "Optimal alignment for SSDs") :=
  (checkAlignment_priority 4194304).1 (by decide)

/-- C8: GetOptimalAlignment returns the 4 MiB boundary exactly when the
device-identification output signals non-rotating media, and returns the
1 MiB boundary for all other devices, including when the detection command
fails. -/
theorem GetOptimalAlignment_spec (o : Option String) :
    (∀ s, o = some s → signalsNonRotating s = true → GetOptimalAlignment o = Align4M) ∧
    (∀ s, o = some s → signalsNonRotating s = false → GetOptimalAlignment o = Align1M) ∧
    (o = none → GetOptimalAlignment o = Align1M) ∧
    (GetOptimalAlignment o = Align4M → ∃ s, o = some s ∧ signalsNonRotating s = true) := by
  refine ⟨?_, ?_, ?_, ?_⟩
  · rintro s rfl hsig
    simp [GetOptimalAlignment, hsig]
  · rintro s rfl hsig
    simp [GetOptimalAlignment, hsig]
  · rintro rfl
    simp [GetOptimalAlignment]
  · intro h4
    match o with
    | none => simp [GetOptimalAlignment, Align1M, Align4M] at h4
    | some s =>
      refine ⟨s, rfl, ?_⟩
      by_contra hne
      have hs : signalsNonRotating s = false := by
        cases hsig : signalsNonRotating s
        · rfl
        · exact absurd hsig hne
      simp [GetOptimalAlignment, hs, Align1M, Align4M] at h4

/-- Witness for C8: a diskinfo output containing non-rotating yields the
4 MiB boundary; obtained by applying GetOptimalAlignment_spec at that output. -/
theorem GetOptimalAlignment_spec_witness :
    GetOptimalAlignment (some "non-rotating") = Align4M :=
  (GetOptimalAlignment_spec (some "non-rotating")).1 "non-rotating" rfl (by decide)

/-! ## Operation history (src/unnamed/part_004, history section)

The Go struct carries a time.Time timestamp and a formatted Description
string; both are presentation-only (never read by any history logic) and are
omitted from the embedding.  currentPos is a Go int that takes the value -1,
so it is modelled as Int. -/

/-- HistoryEntry from the history section of part_004, without the
presentation-only Timestamp and Description fields. -/
structure HistoryEntry where
  ID : Nat
  Operation : String
  Reversible : Bool
  Reversed : Bool
  UndoOperation : String
  UndoDisk : String
  UndoIndex : String
  UndoSize : Nat
  UndoFSType : String
  Disk : String
  Index : String
  Size : Nat
  FSType : String
  OldSize : Nat
  OldFSType : String
  deriving Repr, DecidableEq

/-- OperationHistory state: entries list, next id, and undo/redo cursor. -/
structure OperationHistory where
  entries : List HistoryEntry
  nextID : Nat
  currentPos : Int
  deriving Repr, DecidableEq

/-- NewOperationHistory: empty entries, nextID 1, cursor -1. -/
def NewOperationHistory : OperationHistory :=
  { entries := [], nextID := 1, currentPos := -1 }

/-- RecordCreate: truncates every entry after the cursor (redo invalidation),
appends a reversible, unreversed create entry, and moves the cursor to the
new tail. -/
def RecordCreate (oh : OperationHistory) (disk index : String) (size : Nat)
    (fsType : String) : OperationHistory :=
  let kept :=
    if oh.currentPos < (oh.entries.length : Int) - 1 then
      oh.entries.take (oh.currentPos + 1).toNat
    else oh.entries
  let entry : HistoryEntry :=
    { ID := oh.nextID
      Operation := "create"
      Reversible := true
      Reversed := false
      UndoOperation := "delete"
      UndoDisk := disk
      UndoIndex := index
      UndoSize := 0
      UndoFSType := ""
      Disk := disk
      Index := index
      Size := size
      FSType := fsType
      OldSize := 0
      OldFSType := "" }
  let newEntries := kept ++ [entry]
  { entries := newEntries
    nextID := oh.nextID + 1
    currentPos := (newEntries.length : Int) - 1 }

/-- CanUndo: true only when the cursor points at an entry that is reversible
and not already reversed. -/
def CanUndo (oh : OperationHistory) : Bool :=
  if oh.currentPos < 0 then false
  else
    match oh.entries[oh.currentPos.toNat]? with
    | some e => e.Reversible && !e.Reversed
    | none => false

/-- CanRedo: true when the cursor is not at the tail and the entry
immediately after the cursor is marked reversed. -/
def CanRedo (oh : OperationHistory) : Bool :=
  if oh.currentPos < (oh.entries.length : Int) - 1 then
    match oh.entries[(oh.currentPos + 1).toNat]? with
    | some e => e.Reversed
    | none => false
  else false

/-- GetUndoOperation: on success marks the cursor entry reversed, decrements
the cursor and returns the (mutated) entry; every error path leaves the
state unchanged. -/
def GetUndoOperation (oh : OperationHistory) :
    Except String HistoryEntry × OperationHistory :=
  if oh.currentPos < 0 ∨ (oh.entries.length : Int) ≤ oh.currentPos then
    (Except.error "no operation to undo", oh)
  else
    match oh.entries[oh.currentPos.toNat]? with
    | none => (Except.error "no operation to undo", oh)
    | some e =>
      if !e.Reversible then
        (Except.error "operation is not reversible", oh)
      else if e.Reversed then
        (Except.error "operation already reversed", oh)
      else
        let reversedEntry := { e with Reversed := true }
        (Except.ok reversedEntry,
          { oh with
              entries := oh.entries.set oh.currentPos.toNat reversedEntry
              currentPos := oh.currentPos - 1 })

/-- GetRedoOperation, translated line by line from part_004: the bounds
check happens first, then the cursor is incremented, and only then is the
reversed flag of the entry at the new cursor examined; the
operation-was-not-reversed error therefore leaves the cursor incremented.
The inner none branch is unreachable whenever -1 <= currentPos (the Go
code would panic there on an out-of-range index). -/
def GetRedoOperation (oh : OperationHistory) :
    Except String HistoryEntry × OperationHistory :=
  if (oh.entries.length : Int) - 1 ≤ oh.currentPos then
    (Except.error "no operation to redo", oh)
  else
    let pos := oh.currentPos + 1
    match oh.entries[pos.toNat]? with
    | none => (Except.error "no operation to redo", oh)
    | some e =>
      if !e.Reversed then
        (Except.error "operation was not reversed", { oh with currentPos := pos })
      else
        let clearedEntry := { e with Reversed := false }
        (Except.ok clearedEntry,
          { oh with
              entries := oh.entries.set pos.toNat clearedEntry
              currentPos := pos })

/-- RestorePosition: sets the cursor to pos when -1 <= pos < entry count. -/
def RestorePosition (oh : OperationHistory) (pos : Int) : OperationHistory :=
  if -1 ≤ pos ∧ pos < (oh.entries.length : Int) then
    { oh with currentPos := pos }
  else oh

/-! ## Theorems for history claims -/

/-- C2: starting from an empty OperationHistory, recording one reversible
create, then GetUndoOperation, then GetRedoOperation, yields a state in
which CanUndo is true, CanRedo is false, and the recorded entry has
Reversed = false. -/
theorem history_undo_redo_roundtrip :
    CanUndo (GetRedoOperation (GetUndoOperation
        (RecordCreate NewOperationHistory "ada0" "1" 1048576 "ufs")).2).2 = true ∧
    CanRedo (GetRedoOperation (GetUndoOperation
        (RecordCreate NewOperationHistory "ada0" "1" 1048576 "ufs")).2).2 = false ∧
    ((GetRedoOperation (GetUndoOperation
        (RecordCreate NewOperationHistory "ada0" "1" 1048576 "ufs")).2).2.entries[0]?).map
      HistoryEntry.Reversed = some false := by
  refine ⟨rfl, rfl, rfl⟩

/-- C3 counterexample: with one recorded (unreversed) create and the cursor
restored to -1, GetRedoOperation returns the operation-was-not-reversed
error yet moves the cursor from -1 to 0, so the history state is not left
unchanged on this error path. -/
theorem getRedo_error_moves_cursor :
    (GetRedoOperation (RestorePosition
        (RecordCreate NewOperationHistory "ada0" "1" 1048576 "ufs") (-1))).1 =
      Except.error "operation was not reversed" ∧
    (RestorePosition
        (RecordCreate NewOperationHistory "ada0" "1" 1048576 "ufs") (-1)).currentPos = -1 ∧
    (GetRedoOperation (RestorePosition
        (RecordCreate NewOperationHistory "ada0" "1" 1048576 "ufs") (-1))).2.currentPos = 0 := by
  refine ⟨rfl, rfl, rfl⟩

/-- C3 amended: GetRedoOperation succeeds exactly when the entry right after
the cursor is marked reversed, clearing that flag and incrementing the
cursor; the nothing-to-redo error leaves the state unchanged; but the
not-reversed error, while leaving every reversed flag unchanged, leaves the
cursor incremented by one. -/
theorem GetRedoOperation_spec (oh : OperationHistory) :
    ((oh.entries.length : Int) - 1 ≤ oh.currentPos →
      GetRedoOperation oh = (Except.error "no operation to redo", oh)) ∧
    (∀ e, oh.currentPos < (oh.entries.length : Int) - 1 →
      oh.entries[(oh.currentPos + 1).toNat]? = some e →
      (e.Reversed = true →
        GetRedoOperation oh =
          (Except.ok { e with Reversed := false },
            { oh with
                entries := oh.entries.set (oh.currentPos + 1).toNat { e with Reversed := false }
                currentPos := oh.currentPos + 1 })) ∧
      (e.Reversed = false →
        GetRedoOperation oh =
          (Except.error "operation was not reversed",
            { oh with currentPos := oh.currentPos + 1 }))) := by
  constructor
  · intro hle
    simp [GetRedoOperation, hle]
  · intro e hlt hget
    have hnle : ¬ ((oh.entries.length : Int) - 1 ≤ oh.currentPos) := by omega
    constructor
    · intro hrev
      simp [GetRedoOperation, hnle, hget, hrev]
    · intro hrev
      simp [GetRedoOperation, hnle, hget, hrev]

/-- Witness for C3 amended: after recording a create and undoing it, the
entry after the cursor is reversed and GetRedoOperation succeeds as the
amended claim states; obtained by applying GetRedoOperation_spec to that
concrete history. -/
theorem GetRedoOperation_spec_witness :
    GetRedoOperation (GetUndoOperation
        (RecordCreate NewOperationHistory "ada0" "1" 1048576 "ufs")).2 =
      (Except.ok
        { ID := 1, Operation := "create", Reversible := true, Reversed := false,
          UndoOperation := "delete", UndoDisk := "ada0", UndoIndex := "1",
          UndoSize := 0, UndoFSType := "", Disk := "ada0", Index := "1",
          Size := 1048576, FSType := "ufs", OldSize := 0, OldFSType := "" },
        { entries :=
            [{ ID := 1, Operation := "create", Reversible := true, Reversed := false,
               UndoOperation := "delete", UndoDisk := "ada0", UndoIndex := "1",
               UndoSize := 0, UndoFSType := "", Disk := "ada0", Index := "1",
               Size := 1048576, FSType := "ufs", OldSize := 0, OldFSType := "" }]
          nextID := 2
          currentPos := 0 }) := by
  have h := (GetRedoOperation_spec (GetUndoOperation
      (RecordCreate NewOperationHistory "ada0" "1" 1048576 "ufs")).2).2
    { ID := 1, Operation := "create", Reversible := true, Reversed := true,
      UndoOperation := "delete", UndoDisk := "ada0", UndoIndex := "1",
      UndoSize := 0, UndoFSType := "", Disk := "ada0", Index := "1",
      Size := 1048576, FSType := "ufs", OldSize := 0, OldFSType := "" }
    (by decide) (by decide)
  exact h.1 rfl

/-! ## Copy engine (src/unnamed/part_003)

CopyPartition shells out to diskinfo (via getPartitionSize, once per
partition) and then to dd for the block copy.  The subprocess layer is
abstracted as a CopyEnv: CheckPrivileges is a local euid test (no
subprocess), sizeOf models the diskinfo invocation together with its
output parsing (none = command failure or unparseable output), and
ddSucceeds models the exit status of the dd command.  The function returns
its outcome together with the list of external commands it invoked, in
order. -/

/-- One external command invocation of the copy engine. -/
inductive Cmd
  | diskinfo (dev : String)
  | dd (src dst : String)
  deriving Repr, DecidableEq

/-- Outcome of CopyPartition, one constructor per return site in part_003. -/
inductive CopyResult
  | ok
  | privilegeError
  | sameSourceDest
  | sourceSizeError
  | destSizeError
  | sizeMismatch
  | ddError
  deriving Repr, DecidableEq

/-- Environment abstracting the subprocess layer of the copy engine. -/
structure CopyEnv where
  privileged : Bool
  sizeOf : String → Option Nat
  ddSucceeds : Bool

/-- CopyPartition from part_003: privilege check, source-equals-destination
check, two diskinfo size queries, the destination-too-small check, then the
dd block copy.  The second component lists the subprocess commands invoked,
in order. -/
def CopyPartition (env : CopyEnv) (sourcePart destPart : String) :
    CopyResult × List Cmd :=
  if !env.privileged then (CopyResult.privilegeError, [])
  else if sourcePart = destPart then (CopyResult.sameSourceDest, [])
  else
    match env.sizeOf sourcePart with
    | none => (CopyResult.sourceSizeError, [Cmd.diskinfo sourcePart])
    | some sourceSize =>
      match env.sizeOf destPart with
      | none => (CopyResult.destSizeError, [Cmd.diskinfo sourcePart, Cmd.diskinfo destPart])
      | some destSize =>
        if destSize < sourceSize then
          (CopyResult.sizeMismatch, [Cmd.diskinfo sourcePart, Cmd.diskinfo destPart])
        else if env.ddSucceeds then
          (CopyResult.ok,
            [Cmd.diskinfo sourcePart, Cmd.diskinfo destPart, Cmd.dd sourcePart destPart])
        else
          (CopyResult.ddError,
            [Cmd.diskinfo sourcePart, Cmd.diskinfo destPart, Cmd.dd sourcePart destPart])

/-- Concrete environment for the C1 theorems: privileged, ada0p1 has 100
bytes, every other partition 50 bytes, dd would succeed. -/
def c1Env : CopyEnv :=
  { privileged := true
    sizeOf := fun s => if s = "ada0p1" then some 100 else some 50
    ddSucceeds := true }

/-- C1 counterexample: copying ada0p1 (100 bytes) onto the smaller ada0p2
(50 bytes) fails with the size-mismatch error, yet two subprocess commands
(the two diskinfo size queries) have already been invoked, so the claim
that zero subprocess calls occur is false. -/
theorem copyPartition_sizeMismatch_runs_diskinfo :
    (CopyPartition c1Env "ada0p1" "ada0p2").1 = CopyResult.sizeMismatch ∧
    (CopyPartition c1Env "ada0p1" "ada0p2").2.length = 2 := by
  refine ⟨rfl, rfl⟩

/-- C1 amended: whenever the destination byte capacity is strictly smaller
than the source, CopyPartition fails with the size-mismatch error having
invoked exactly the two diskinfo size queries, and in particular the dd
block-copy command is never invoked (the rejection happens before the copy
command runs). -/
theorem CopyPartition_small_dest (env : CopyEnv) (src dst : String) (s d : Nat)
    (hpriv : env.privileged = true) (hne : src ≠ dst)
    (hs : env.sizeOf src = some s) (hd : env.sizeOf dst = some d) (hlt : d < s) :
    CopyPartition env src dst = (CopyResult.sizeMismatch, [Cmd.diskinfo src, Cmd.diskinfo dst]) ∧
    ∀ a b, Cmd.dd a b ∉ (CopyPartition env src dst).2 := by
  have hrun : CopyPartition env src dst =
      (CopyResult.sizeMismatch, [Cmd.diskinfo src, Cmd.diskinfo dst]) := by
    simp [CopyPartition, hpriv, hne, hs, hd, hlt]
  refine ⟨hrun, ?_⟩
  intro a b hmem
  rw [hrun] at hmem
  simp at hmem

/-- Witness for C1 amended: applying CopyPartition_small_dest to the
concrete environment c1Env with source ada0p1 and destination ada0p2. -/
theorem CopyPartition_small_dest_witness :
    CopyPartition c1Env "ada0p1" "ada0p2" =
      (CopyResult.sizeMismatch, [Cmd.diskinfo "ada0p1", Cmd.diskinfo "ada0p2"]) ∧
    ∀ a b, Cmd.dd a b ∉ (CopyPartition c1Env "ada0p1" "ada0p2").2 :=
  CopyPartition_small_dest c1Env "ada0p1" "ada0p2" 100 50 rfl (by decide) rfl rfl (by decide)

/-! ## Batch queue (src/unnamed/part_004, batch section)

The queue holds BatchOperations whose Status field is one of the strings
pending, running, completed, failed.  executeOperation dispatches every
operation kind to an external action; that dispatch is abstracted as an
oracle exec mapping the operation to ok or an error message.  ExecuteAll is
modelled as a function from the queue list to (outcome, updated list,
ids of the operations on which exec was invoked, in order); the transient
running status set just before exec is never observable afterwards.  The
progress callback is presentation-only and omitted. -/

/-- OperationType from part_004. -/
inductive OperationType
  | OpCreate
  | OpDelete
  | OpFormat
  | OpResize
  | OpCopy
  | OpMove
  deriving Repr, DecidableEq

/-- BatchOperation from the batch section of part_004 (the copy with
Disk/Index and source/destination disk fields).  The Go field named Type is
a Lean keyword and is rendered OpType. -/
structure BatchOperation where
  ID : Nat
  OpType : OperationType
  Description : String
  Status : String
  Error : String
  Disk : String
  Index : String
  Partition : String
  SourcePart : String
  DestPart : String
  SourceDisk : String
  SourceIndex : String
  DestDisk : String
  DestIndex : String
  FilesystemType : String
  Size : Nat
  deriving Repr, DecidableEq

/-- Result of ExecuteAll: nil error, the no-operations error, or the
operation-N-failed error naming the failing id (stopOnError case). -/
inductive ExecOutcome
  | success
  | noOperations
  | opFailed (id : Nat)
  deriving Repr, DecidableEq

/-- The loop body of ExecuteAll: entries already completed are skipped;
otherwise exec runs and the entry becomes completed or failed; a failure
with stopOnError set returns immediately, leaving the remaining entries
untouched.  The third component records the ids exec was invoked on. -/
def executeAllGo (exec : BatchOperation → Except String Unit) (stopOnError : Bool) :
    List BatchOperation → ExecOutcome × List BatchOperation × List Nat
  | [] => (ExecOutcome.success, [], [])
  | op :: rest =>
    if op.Status = "completed" then
      let (r, rest2, executed) := executeAllGo exec stopOnError rest
      (r, op :: rest2, executed)
    else
      match exec { op with Status := "running" } with
      | Except.ok _ =>
        let (r, rest2, executed) := executeAllGo exec stopOnError rest
        (r, { op with Status := "completed" } :: rest2, op.ID :: executed)
      | Except.error msg =>
        let failedOp := { op with Status := "failed", Error := msg }
        if stopOnError then (ExecOutcome.opFailed op.ID, failedOp :: rest, [op.ID])
        else
          let (r, rest2, executed) := executeAllGo exec stopOnError rest
          (r, failedOp :: rest2, op.ID :: executed)

/-- ExecuteAll from part_004: rejects an empty queue, then runs the loop. -/
def ExecuteAll (exec : BatchOperation → Except String Unit) (stopOnError : Bool)
    (ops : List BatchOperation) : ExecOutcome × List BatchOperation × List Nat :=
  if ops.length = 0 then (ExecOutcome.noOperations, ops, [])
  else executeAllGo exec stopOnError ops

/-- C5: ExecuteAll with stopOnError true on three non-completed operations
whose second execution fails halts immediately: the result names the second
operation as failed, the second operation ends with status failed, and the
third is left exactly as it was, with status pending (never failed or
running). -/
theorem executeAll_stopOnError_leaves_pending
    (exec : BatchOperation → Except String Unit) (o1 o2 o3 : BatchOperation) (msg : String)
    (h1 : o1.Status ≠ "completed") (h2 : o2.Status ≠ "completed")
    (h3 : o3.Status = "pending")
    (e1 : exec { o1 with Status := "running" } = Except.ok ())
    (e2 : exec { o2 with Status := "running" } = Except.error msg) :
    (ExecuteAll exec true [o1, o2, o3]).1 = ExecOutcome.opFailed o2.ID ∧
    (ExecuteAll exec true [o1, o2, o3]).2.1 =
      [{ o1 with Status := "completed" }, { o2 with Status := "failed", Error := msg }, o3] ∧
    ((ExecuteAll exec true [o1, o2, o3]).2.1[2]?).map BatchOperation.Status = some "pending" := by
  have hrun : ExecuteAll exec true [o1, o2, o3] =
      (ExecOutcome.opFailed o2.ID,
        [{ o1 with Status := "completed" }, { o2 with Status := "failed", Error := msg }, o3],
        [o1.ID, o2.ID]) := by
    simp [ExecuteAll, executeAllGo, h1, h2, e1, e2]
  rw [hrun]
  exact ⟨rfl, rfl, by simp [h3]⟩

/-- Witness for C5: a concrete pending operation triple whose second
execution fails; obtained by applying executeAll_stopOnError_leaves_pending
to it. -/
theorem executeAll_stopOnError_leaves_pending_witness :
    (ExecuteAll
        (fun op => if op.ID = 2 then Except.error "boom" else Except.ok ()) true
        [{ ID := 1, OpType := OperationType.OpCreate, Description := "", Status := "pending",
           Error := "", Disk := "", Index := "", Partition := "", SourcePart := "",
           DestPart := "", SourceDisk := "", SourceIndex := "", DestDisk := "",
           DestIndex := "", FilesystemType := "", Size := 0 },
         { ID := 2, OpType := OperationType.OpDelete, Description := "", Status := "pending",
           Error := "", Disk := "", Index := "", Partition := "", SourcePart := "",
           DestPart := "", SourceDisk := "", SourceIndex := "", DestDisk := "",
           DestIndex := "", FilesystemType := "", Size := 0 },
         { ID := 3, OpType := OperationType.OpFormat, Description := "", Status := "pending",
           Error := "", Disk := "", Index := "", Partition := "", SourcePart := "",
           DestPart := "", SourceDisk := "", SourceIndex := "", DestDisk := "",
           DestIndex := "", FilesystemType := "", Size := 0 }]).2.1[2]?.map
      BatchOperation.Status = some "pending" :=
  (executeAll_stopOnError_leaves_pending
    (fun op => if op.ID = 2 then Except.error "boom" else Except.ok ())
    { ID := 1, OpType := OperationType.OpCreate, Description := "", Status := "pending",
      Error := "", Disk := "", Index := "", Partition := "", SourcePart := "",
      DestPart := "", SourceDisk := "", SourceIndex := "", DestDisk := "",
      DestIndex := "", FilesystemType := "", Size := 0 }
    { ID := 2, OpType := OperationType.OpDelete, Description := "", Status := "pending",
      Error := "", Disk := "", Index := "", Partition := "", SourcePart := "",
      DestPart := "", SourceDisk := "", SourceIndex := "", DestDisk := "",
      DestIndex := "", FilesystemType := "", Size := 0 }
    { ID := 3, OpType := OperationType.OpFormat, Description := "", Status := "pending",
      Error := "", Disk := "", Index := "", Partition := "", SourcePart := "",
      DestPart := "", SourceDisk := "", SourceIndex := "", DestDisk := "",
      DestIndex := "", FilesystemType := "", Size := 0 }
    "boom" (by decide) (by decide) rfl rfl rfl).2.2

/-- C6: ExecuteAll with stopOnError false on three pending operations, of
which exactly the second fails, leaves every operation terminal (completed
or failed), and any subsequent ExecuteAll call on the resulting queue
invokes the executor only on the one non-completed entry (the failed second
operation), skipping the completed ones. -/
theorem executeAll_continue_then_skip
    (exec exec2 : BatchOperation → Except String Unit) (b : Bool)
    (o1 o2 o3 : BatchOperation) (msg : String)
    (h1 : o1.Status = "pending") (h2 : o2.Status = "pending") (h3 : o3.Status = "pending")
    (e1 : exec { o1 with Status := "running" } = Except.ok ())
    (e2 : exec { o2 with Status := "running" } = Except.error msg)
    (e3 : exec { o3 with Status := "running" } = Except.ok ()) :
    (∀ op ∈ (ExecuteAll exec false [o1, o2, o3]).2.1,
      op.Status = "completed" ∨ op.Status = "failed") ∧
    (ExecuteAll exec2 b (ExecuteAll exec false [o1, o2, o3]).2.1).2.2 = [o2.ID] := by
  have h1c : o1.Status ≠ "completed" := by rw [h1]; decide
  have h2c : o2.Status ≠ "completed" := by rw [h2]; decide
  have h3c : o3.Status ≠ "completed" := by rw [h3]; decide
  have hrun : ExecuteAll exec false [o1, o2, o3] =
      (ExecOutcome.success,
        [{ o1 with Status := "completed" }, { o2 with Status := "failed", Error := msg },
         { o3 with Status := "completed" }],
        [o1.ID, o2.ID, o3.ID]) := by
    simp [ExecuteAll, executeAllGo, h1c, h2c, h3c, e1, e2, e3]
  rw [hrun]
  constructor
  · intro op hop
    simp only [List.mem_cons, List.not_mem_nil, or_false] at hop
    rcases hop with rfl | rfl | rfl
    · exact Or.inl rfl
    · exact Or.inr rfl
    · exact Or.inl rfl
  · cases hx : exec2 { o2 with Status := "running", Error := msg } with
    | ok u =>
      cases u
      simp [ExecuteAll, executeAllGo, hx]
    | error m2 =>
      cases b <;> simp [ExecuteAll, executeAllGo, hx]

/-- Witness for C6: the same concrete triple as the C5 witness, executed
with stopOnError false; obtained by applying executeAll_continue_then_skip. -/
theorem executeAll_continue_then_skip_witness :
    (ExecuteAll (fun _ => Except.ok ()) false
      (ExecuteAll
        (fun op => if op.ID = 2 then Except.error "boom" else Except.ok ()) false
        [{ ID := 1, OpType := OperationType.OpCreate, Description := "", Status := "pending",
           Error := "", Disk := "", Index := "", Partition := "", SourcePart := "",
           DestPart := "", SourceDisk := "", SourceIndex := "", DestDisk := "",
           DestIndex := "", FilesystemType := "", Size := 0 },
         { ID := 2, OpType := OperationType.OpDelete, Description := "", Status := "pending",
           Error := "", Disk := "", Index := "", Partition := "", SourcePart := "",
           DestPart := "", SourceDisk := "", SourceIndex := "", DestDisk := "",
           DestIndex := "", FilesystemType := "", Size := 0 },
         { ID := 3, OpType := OperationType.OpFormat, Description := "", Status := "pending",
           Error := "", Disk := "", Index := "", Partition := "", SourcePart := "",
           DestPart := "", SourceDisk := "", SourceIndex := "", DestDisk := "",
           DestIndex := "", FilesystemType := "", Size := 0 }]).2.1).2.2 = [2] :=
  (executeAll_continue_then_skip
    (fun op => if op.ID = 2 then Except.error "boom" else Except.ok ())
    (fun _ => Except.ok ()) false
    { ID := 1, OpType := OperationType.OpCreate, Description := "", Status := "pending",
      Error := "", Disk := "", Index := "", Partition := "", SourcePart := "",
      DestPart := "", SourceDisk := "", SourceIndex := "", DestDisk := "",
      DestIndex := "", FilesystemType := "", Size := 0 }
    { ID := 2, OpType := OperationType.OpDelete, Description := "", Status := "pending",
      Error := "", Disk := "", Index := "", Partition := "", SourcePart := "",
      DestPart := "", SourceDisk := "", SourceIndex := "", DestDisk := "",
      DestIndex := "", FilesystemType := "", Size := 0 }
    { ID := 3, OpType := OperationType.OpFormat, Description := "", Status := "pending",
      Error := "", Disk := "", Index := "", Partition := "", SourcePart := "",
      DestPart := "", SourceDisk := "", SourceIndex := "", DestDisk := "",
      DestIndex := "", FilesystemType := "", Size := 0 }
    "boom" rfl rfl rfl rfl rfl rfl).2

/-! ## Queue reordering: MoveOperation (src/unnamed/part_004, batch section)

MoveOperation first scans for the operation with the given id, then bounds
checks newPosition against the original length, then removes the element at
the found index and inserts it at newPosition of the shortened list (Go
slice splicing; since newPosition is at most length - 1 the insertion index
is always in range for the shortened list).  Errors are returned before any
mutation, so the second component of the result is the unchanged list in
every error case. -/

/-- Error results of MoveOperation. -/
inductive MoveError
  | notFound (id : Nat)
  | invalidPosition (pos : Int)
  deriving Repr, DecidableEq

/-- The id-search loop at the top of MoveOperation: index of the first
operation with the given ID. -/
def findOpIndex (id : Nat) : List BatchOperation → Option Nat
  | [] => none
  | op :: rest =>
    if op.ID = id then some 0
    else (findOpIndex id rest).map (· + 1)

/-- MoveOperation from part_004.  newPosition is a Go int and may be
negative, hence Int.  The inner none branch is unreachable because
findOpIndex only returns indices that are in range. -/
def MoveOperation (ops : List BatchOperation) (id : Nat) (newPosition : Int) :
    Option MoveError × List BatchOperation :=
  match findOpIndex id ops with
  | none => (some (MoveError.notFound id), ops)
  | some opIndex =>
    if newPosition < 0 ∨ (ops.length : Int) ≤ newPosition then
      (some (MoveError.invalidPosition newPosition), ops)
    else
      match ops[opIndex]? with
      | none => (some (MoveError.notFound id), ops)
      | some op => (none, (ops.eraseIdx opIndex).insertIdx newPosition.toNat op)

/-- A successful id search yields an in-range index whose element carries
the searched id. -/
theorem findOpIndex_some (id : Nat) :
    ∀ (ops : List BatchOperation) (i : Nat), findOpIndex id ops = some i →
      ∃ op, ops[i]? = some op ∧ op.ID = id := by
  intro ops
  induction ops with
  | nil => intro i h; simp [findOpIndex] at h
  | cons op rest ih =>
    intro i h
    by_cases hid : op.ID = id
    · simp [findOpIndex, hid] at h
      subst h
      exact ⟨op, by simp, hid⟩
    · simp only [findOpIndex, hid, if_false, Option.map_eq_some'] at h
      obtain ⟨j, hj, rfl⟩ := h
      obtain ⟨p, hp, hpid⟩ := ih j hj
      exact ⟨p, by simpa using hp, hpid⟩

/-- A failed id search means no element carries the id, and conversely. -/
theorem findOpIndex_none_iff (id : Nat) (ops : List BatchOperation) :
    findOpIndex id ops = none ↔ ∀ op ∈ ops, op.ID ≠ id := by
  induction ops with
  | nil => simp [findOpIndex]
  | cons op rest ih =>
    by_cases hid : op.ID = id
    · simp [findOpIndex, hid]
    · simp [findOpIndex, hid, ih]

/-- Any list whose i-th element is a is a permutation of a consed onto the
list with index i erased. -/
theorem perm_cons_eraseIdx {α : Type} :
    ∀ (l : List α) (i : Nat) (a : α), l[i]? = some a →
      l.Perm (a :: l.eraseIdx i) := by
  intro l
  induction l with
  | nil => intro i a h; simp at h
  | cons b t ih =>
    intro i a h
    cases i with
    | zero =>
      simp at h
      subst h
      simp [List.eraseIdx]
    | succ j =>
      simp only [List.getElem?_cons_succ] at h
      have h1 : (b :: t).Perm (b :: a :: t.eraseIdx j) := (ih j a h).cons b
      have h2 : (b :: a :: t.eraseIdx j).Perm (a :: b :: t.eraseIdx j) :=
        List.Perm.swap a b (t.eraseIdx j)
      simpa [List.eraseIdx] using h1.trans h2

/-- Inserting at an in-range index is a permutation of consing. -/
theorem perm_insertIdx {α : Type} (a : α) :
    ∀ (n : Nat) (l : List α), n ≤ l.length → (l.insertIdx n a).Perm (a :: l) := by
  intro n
  induction n with
  | zero => intro l _; simp
  | succ m ih =>
    intro l hl
    cases l with
    | nil => simp at hl
    | cons b t =>
      simp only [List.insertIdx_succ_cons]
      exact ((ih t (by simpa using hl)).cons b).trans (List.Perm.swap a b t)

/-- The element inserted at an in-range index is found there. -/
theorem getElem?_insertIdx_self {α : Type} (a : α) (l : List α) (n : Nat)
    (h : n ≤ l.length) : (l.insertIdx n a)[n]? = some a := by
  have hlen : (l.insertIdx n a).length = l.length + 1 := List.length_insertIdx n l h
  have hn : n < (l.insertIdx n a).length := by omega
  rw [List.getElem?_eq_getElem hn]
  exact congrArg some (List.getElem_insertIdx_self l a n h)

/-- C10: for an id present in the queue and an in-range newPosition,
MoveOperation succeeds and permutes the queue (same length, same multiset)
with an operation carrying the id at index newPosition; for an absent id it
returns the not-found error, and for an out-of-range newPosition it returns
an error; in both error cases the queue is unchanged. -/
theorem MoveOperation_spec (ops : List BatchOperation) (id : Nat) (pos : Int) :
    ((∃ op ∈ ops, op.ID = id) → 0 ≤ pos → pos < (ops.length : Int) →
      (MoveOperation ops id pos).1 = none ∧
      (MoveOperation ops id pos).2.length = ops.length ∧
      (MoveOperation ops id pos).2.Perm ops ∧
      ∃ op, (MoveOperation ops id pos).2[pos.toNat]? = some op ∧ op.ID = id) ∧
    ((∀ op ∈ ops, op.ID ≠ id) →
      MoveOperation ops id pos = (some (MoveError.notFound id), ops)) ∧
    ((pos < 0 ∨ (ops.length : Int) ≤ pos) →
      (MoveOperation ops id pos).2 = ops ∧ (MoveOperation ops id pos).1 ≠ none) := by
  refine ⟨?_, ?_, ?_⟩
  · rintro ⟨op0, hmem, hid⟩ hpos hlt
    have hfind : findOpIndex id ops ≠ none := by
      rw [Ne, findOpIndex_none_iff]
      push_neg
      exact ⟨op0, hmem, hid⟩
    obtain ⟨i, hi⟩ := Option.ne_none_iff_exists'.mp hfind
    obtain ⟨op, hget, hopid⟩ := findOpIndex_some id ops i hi
    have hirange : i < ops.length := by
      by_contra hge
      rw [List.getElem?_eq_none (by omega)] at hget
      exact Option.noConfusion hget
    have hcond : ¬ (pos < 0 ∨ (ops.length : Int) ≤ pos) := by omega
    have hrun : MoveOperation ops id pos =
        (none, (ops.eraseIdx i).insertIdx pos.toNat op) := by
      simp [MoveOperation, hi, hcond, hget]
    have herlen : (ops.eraseIdx i).length = ops.length - 1 := by
      simp [List.length_eraseIdx, hirange]
    have hposle : pos.toNat ≤ (ops.eraseIdx i).length := by omega
    have hperm : ((ops.eraseIdx i).insertIdx pos.toNat op).Perm ops :=
      (perm_insertIdx op pos.toNat (ops.eraseIdx i) hposle).trans
        (perm_cons_eraseIdx ops i op hget).symm
    refine ⟨by rw [hrun], ?_, ?_, ?_⟩
    · rw [hrun]
      exact hperm.length_eq
    · rw [hrun]
      exact hperm
    · refine ⟨op, ?_, hopid⟩
      rw [hrun]
      exact getElem?_insertIdx_self op (ops.eraseIdx i) pos.toNat hposle
  · intro habsent
    have : findOpIndex id ops = none := (findOpIndex_none_iff id ops).mpr habsent
    simp [MoveOperation, this]
  · intro hbad
    match hf : findOpIndex id ops with
    | none => simp [MoveOperation, hf]
    | some i => simp [MoveOperation, hf, hbad]

/-- Witness for C10: moving the operation with id 2 to the front of a
concrete two-element queue; obtained by applying MoveOperation_spec. -/
theorem MoveOperation_spec_witness :
    (MoveOperation
      [{ ID := 1, OpType := OperationType.OpCreate, Description := "", Status := "pending",
         Error := "", Disk := "", Index := "", Partition := "", SourcePart := "",
         DestPart := "", SourceDisk := "", SourceIndex := "", DestDisk := "",
         DestIndex := "", FilesystemType := "", Size := 0 },
       { ID := 2, OpType := OperationType.OpDelete, Description := "", Status := "pending",
         Error := "", Disk := "", Index := "", Partition := "", SourcePart := "",
         DestPart := "", SourceDisk := "", SourceIndex := "", DestDisk := "",
         DestIndex := "", FilesystemType := "", Size := 0 }] 2 0).1 = none :=
  ((MoveOperation_spec
    [{ ID := 1, OpType := OperationType.OpCreate, Description := "", Status := "pending",
       Error := "", Disk := "", Index := "", Partition := "", SourcePart := "",
       DestPart := "", SourceDisk := "", SourceIndex := "", DestDisk := "",
       DestIndex := "", FilesystemType := "", Size := 0 },
     { ID := 2, OpType := OperationType.OpDelete, Description := "", Status := "pending",
       Error := "", Disk := "", Index := "", Partition := "", SourcePart := "",
       DestPart := "", SourceDisk := "", SourceIndex := "", DestDisk := "",
       DestIndex := "", FilesystemType := "", Size := 0 }] 2 0).1
    ⟨{ ID := 2, OpType := OperationType.OpDelete, Description := "", Status := "pending",
       Error := "", Disk := "", Index := "", Partition := "", SourcePart := "",
       DestPart := "", SourceDisk := "", SourceIndex := "", DestDisk := "",
       DestIndex := "", FilesystemType := "", Size := 0 }, by simp, rfl⟩
    (by decide) (by decide)).1

/-! ## Disk/partition model and listing (src/internal/partition/partition.go)

GetDisks first runs the geometry listing (geom disk list) and fails when
that command fails; the parsed disks all start with an empty partition
list.  It then runs the per-disk partition listing (gpart show) for each
disk; when that nested call fails for a disk, the loop does continue and
the disk keeps its empty partition list.  Both subprocess layers are
abstracted: geomDisks is the parse of the geometry listing (none = the
geometry command failed), partsOf gives the per-disk partition listing
result (none = the gpart command failed for that disk). -/

/-- Partition entity from partition.go. -/
structure Partition where
  Name : String
  PType : String
  Size : Nat
  Start : Nat
  End : Nat
  FileSystem : String
  Label : String
  MountPoint : String
  deriving Repr, DecidableEq

/-- Disk entity from partition.go. -/
structure Disk where
  Name : String
  Model : String
  Size : Nat
  SectorSize : Nat
  Scheme : String
  Partitions : List Partition
  Device : String
  deriving Repr, DecidableEq

/-- The per-disk step of the GetDisks loop: a failed partition listing
leaves the disk unchanged (continue), a successful one replaces its
partition list. -/
def fillDiskPartitions (partsOf : String → Option (List Partition)) (d : Disk) : Disk :=
  match partsOf d.Name with
  | none => d
  | some ps => { d with Partitions := ps }

/-- GetDisks from partition.go over the abstracted subprocess layer. -/
def GetDisks (geomDisks : Option (List Disk))
    (partsOf : String → Option (List Partition)) : Option (List Disk) :=
  match geomDisks with
  | none => none
  | some disks => some (disks.map (fillDiskPartitions partsOf))

/-- C9: a failure of the per-disk partition listing for one disk does not
abort the whole GetDisks call: the listing still succeeds, has the same
number of disks, the failing disk is present unchanged with its empty
partition list, and every disk whose listing succeeded carries the listed
partitions. -/
theorem GetDisks_tolerates_one_disk_failure
    (partsOf : String → Option (List Partition)) (disks : List Disk)
    (i : Nat) (d : Disk)
    (hd : disks[i]? = some d) (hfail : partsOf d.Name = none)
    (hempty : d.Partitions = []) :
    ∃ l, GetDisks (some disks) partsOf = some l ∧
      l.length = disks.length ∧
      l[i]? = some d ∧
      (l[i]?).map Disk.Partitions = some [] ∧
      ∀ (j : Nat) (e : Disk) (ps : List Partition),
        disks[j]? = some e → partsOf e.Name = some ps →
        l[j]? = some { e with Partitions := ps } := by
  refine ⟨disks.map (fillDiskPartitions partsOf), rfl, List.length_map _ _, ?_, ?_, ?_⟩
  · rw [List.getElem?_map, hd]
    simp [fillDiskPartitions, hfail]
  · rw [List.getElem?_map, hd]
    simp [fillDiskPartitions, hfail, hempty]
  · intro j e ps hj hps
    rw [List.getElem?_map, hj]
    simp [fillDiskPartitions, hps]

/-- Witness for C9: two concrete disks where the partition listing fails
for the first and succeeds for the second; obtained by applying
GetDisks_tolerates_one_disk_failure. -/
theorem GetDisks_tolerates_one_disk_failure_witness :
    ∃ l, GetDisks
        (some [{ Name := "ada0", Model := "", Size := 1000, SectorSize := 512, Scheme := "",
                 Partitions := [], Device := "/dev/ada0" },
               { Name := "ada1", Model := "", Size := 1000, SectorSize := 512, Scheme := "",
                 Partitions := [], Device := "/dev/ada1" }])
        (fun n => if n = "ada0" then none
                  else some [{ Name := "ada1p1", PType := "freebsd-ufs", Size := 10,
                               Start := 1, End := 11, FileSystem := "UFS", Label := "",
                               MountPoint := "" }]) = some l ∧
      l.length = 2 ∧
      l[0]? = some { Name := "ada0", Model := "", Size := 1000, SectorSize := 512, Scheme := "",
                     Partitions := [], Device := "/dev/ada0" } ∧
      (l[0]?).map Disk.Partitions = some [] ∧
      ∀ (j : Nat) (e : Disk) (ps : List Partition),
        [{ Name := "ada0", Model := "", Size := 1000, SectorSize := 512, Scheme := "",
           Partitions := [], Device := "/dev/ada0" },
         { Name := "ada1", Model := "", Size := 1000, SectorSize := 512, Scheme := "",
           Partitions := [], Device := "/dev/ada1" }][j]? = some e →
        (if e.Name = "ada0" then none
         else some [{ Name := "ada1p1", PType := "freebsd-ufs", Size := 10,
                      Start := 1, End := 11, FileSystem := "UFS", Label := "",
                      MountPoint := "" }]) = some ps →
        l[j]? = some { e with Partitions := ps } := by
  have h := GetDisks_tolerates_one_disk_failure
    (fun n => if n = "ada0" then none
              else some [{ Name := "ada1p1", PType := "freebsd-ufs", Size := 10,
                           Start := 1, End := 11, FileSystem := "UFS", Label := "",
                           MountPoint := "" }])
    [{ Name := "ada0", Model := "", Size := 1000, SectorSize := 512, Scheme := "",
       Partitions := [], Device := "/dev/ada0" },
     { Name := "ada1", Model := "", Size := 1000, SectorSize := 512, Scheme := "",
       Partitions := [], Device := "/dev/ada1" }]
    0
    { Name := "ada0", Model := "", Size := 1000, SectorSize := 512, Scheme := "",
      Partitions := [], Device := "/dev/ada0" }
    rfl rfl rfl
  exact h

/-! ## Resize ceiling calculator (src/internal/ui/resizedialog.go)

calculateMaxSize works on Go uint64 values: it starts from
disk.Size - partition.Start and, for every partition starting strictly
after this one and below the current ceiling, lowers the ceiling to that
start minus this partition's start.  The uint64 arithmetic is modelled on
Nat with explicit wrap-around modulo 2^64; the theorems assume the values
describe partitions lying on the disk, under which no wrap-around occurs. -/

/-- 2^64, the modulus of Go uint64 arithmetic. -/
def U64 : Nat := 18446744073709551616

/-- Go uint64 addition. -/
def wrapAdd (a b : Nat) : Nat := (a + b) % U64

/-- Go uint64 subtraction (for a b less than 2^64). -/
def wrapSub (a b : Nat) : Nat := (a + U64 - b) % U64

/-- The loop body of calculateMaxSize in resizedialog.go. -/
def resizeStep (start : Nat) (maxSize : Nat) (p : Partition) : Nat :=
  if start < p.Start ∧ p.Start < wrapAdd start maxSize then wrapSub p.Start start
  else maxSize

/-- calculateMaxSize from resizedialog.go. -/
def calculateMaxSize (disk : Disk) (part : Partition) : Nat :=
  disk.Partitions.foldl (resizeStep part.Start) (wrapSub disk.Size part.Start)

/-- Wrap-around addition below the modulus is plain addition. -/
theorem wrapAdd_eq (a b : Nat) (h : a + b < U64) : wrapAdd a b = a + b := by
  unfold wrapAdd U64 at *
  omega

/-- Wrap-around subtraction of a smaller value is plain subtraction. -/
theorem wrapSub_eq (a b : Nat) (ha : a < U64) (hba : b ≤ a) : wrapSub a b = a - b := by
  unfold wrapSub U64 at *
  omega

/-- Truncated subtraction distributes over binary minimum. -/
theorem min_sub_right (a b c : Nat) : min a b - c = min (a - c) (b - c) := by
  rcases Nat.le_total a b with h | h
  · rw [Nat.min_eq_left h, Nat.min_eq_left (Nat.sub_le_sub_right h c)]
  · rw [Nat.min_eq_right h, Nat.min_eq_right (Nat.sub_le_sub_right h c)]

/-- The resize loop computes the minimum of the incoming ceiling and the
distances to all partition starts strictly beyond start, as long as all
quantities lie on a disk of size dsz below the uint64 modulus. -/
theorem resizeFold_charac (start dsz : Nat) (hdsz : dsz < U64) (hstart : start ≤ dsz) :
    ∀ (l : List Partition) (acc : Nat), acc ≤ dsz - start →
      (∀ q ∈ l, q.Start ≤ dsz) →
      l.foldl (resizeStep start) acc =
        (((l.filter (fun q => decide (start < q.Start))).map Partition.Start).min?).elim acc
          (fun m => min acc (m - start)) := by
  intro l
  induction l with
  | nil =>
    intro acc _ _
    simp
  | cons p t ih =>
    intro acc hacc hall
    have hp : p.Start ≤ dsz := hall p (by simp)
    have ht : ∀ q ∈ t, q.Start ≤ dsz := fun q hq => hall q (by simp [hq])
    by_cases hgt : start < p.Start
    · have hadd : wrapAdd start acc = start + acc := wrapAdd_eq _ _ (by omega)
      have hsub : wrapSub p.Start start = p.Start - start := wrapSub_eq _ _ (by omega) (by omega)
      have hstep : resizeStep start acc p = min acc (p.Start - start) := by
        unfold resizeStep
        simp only [hadd, hsub]
        rcases Nat.lt_or_ge p.Start (start + acc) with hlt | hge
        · rw [if_pos ⟨hgt, hlt⟩]
          omega
        · rw [if_neg (by omega)]
          omega
      rw [List.foldl_cons, hstep, ih (min acc (p.Start - start)) (by omega) ht]
      simp only [List.filter_cons, decide_eq_true hgt, if_true, List.map_cons, List.min?_cons]
      cases hT : ((t.filter (fun q => decide (start < q.Start))).map Partition.Start).min? with
      | none =>
        simp
      | some m =>
        simp only [Option.elim_some]
        rw [min_sub_right]
        omega
    · have hstep : resizeStep start acc p = acc := by
        unfold resizeStep
        rw [if_neg (by omega)]
      rw [List.foldl_cons, hstep, ih acc hacc ht]
      simp [List.filter_cons, hgt]

/-- C4: for partitions lying on the disk, the maximum resize size equals
the minimum start offset among partitions starting strictly after this one
minus this partition's start when such a partition exists, and otherwise
the end of the disk minus this partition's start. -/
theorem calculateMaxSize_spec (disk : Disk) (part : Partition)
    (hdsz : disk.Size < U64) (hstart : part.Start ≤ disk.Size)
    (hall : ∀ q ∈ disk.Partitions, q.Start ≤ disk.Size) :
    calculateMaxSize disk part =
      (((disk.Partitions.filter (fun q => decide (part.Start < q.Start))).map
          Partition.Start).min?).elim (disk.Size - part.Start)
        (fun m => m - part.Start) := by
  unfold calculateMaxSize
  rw [wrapSub_eq disk.Size part.Start hdsz hstart,
    resizeFold_charac part.Start disk.Size hdsz hstart disk.Partitions
      (disk.Size - part.Start) (Nat.le_refl _) hall]
  cases hT : ((disk.Partitions.filter (fun q => decide (part.Start < q.Start))).map
      Partition.Start).min? with
  | none => simp
  | some m =>
    simp only [Option.elim_some]
    have hm : m ∈ (disk.Partitions.filter (fun q => decide (part.Start < q.Start))).map
        Partition.Start := List.min?_mem (fun a b => min_choice a b) hT
    obtain ⟨q, hq, rfl⟩ := List.mem_map.mp hm
    have hqs : q.Start ≤ disk.Size := hall q (List.mem_of_mem_filter hq)
    omega

/-- Witness for C4: a concrete disk with a partition at start 100 followed
by partitions at 500 and 300; the resize ceiling is 300 - 100 = 200;
obtained by applying calculateMaxSize_spec to that disk. -/
theorem calculateMaxSize_spec_witness :
    calculateMaxSize
      { Name := "ada0", Model := "", Size := 1000, SectorSize := 512, Scheme := "GPT",
        Partitions :=
          [{ Name := "ada0p1", PType := "freebsd-ufs", Size := 100, Start := 100, End := 200,
             FileSystem := "UFS", Label := "", MountPoint := "" },
           { Name := "ada0p2", PType := "freebsd-ufs", Size := 100, Start := 500, End := 600,
             FileSystem := "UFS", Label := "", MountPoint := "" },
           { Name := "ada0p3", PType := "freebsd-swap", Size := 100, Start := 300, End := 400,
             FileSystem := "swap", Label := "", MountPoint := "" }],
        Device := "/dev/ada0" }
      { Name := "ada0p1", PType := "freebsd-ufs", Size := 100, Start := 100, End := 200,
        FileSystem := "UFS", Label := "", MountPoint := "" } = 200 := by
  rw [calculateMaxSize_spec
    { Name := "ada0", Model := "", Size := 1000, SectorSize := 512, Scheme := "GPT",
      Partitions :=
        [{ Name := "ada0p1", PType := "freebsd-ufs", Size := 100, Start := 100, End := 200,
           FileSystem := "UFS", Label := "", MountPoint := "" },
         { Name := "ada0p2", PType := "freebsd-ufs", Size := 100, Start := 500, End := 600,
           FileSystem := "UFS", Label := "", MountPoint := "" },
         { Name := "ada0p3", PType := "freebsd-swap", Size := 100, Start := 300, End := 400,
           FileSystem := "swap", Label := "", MountPoint := "" }],
      Device := "/dev/ada0" }
    { Name := "ada0p1", PType := "freebsd-ufs", Size := 100, Start := 100, End := 200,
      FileSystem := "UFS", Label := "", MountPoint := "" }
    (by decide) (by decide) (by decide)]
  rfl

end PGPart
